import Mathlib

/-!
Shallow embedding of the FX-Dashboard risk-analytics core.

JavaScript `number` values are modelled as real numbers (`ℝ`); timestamps
(millisecond epoch values produced by `Date.getTime()` / compared by
`Date.now()`) are modelled as integers (`ℤ`), and the cooldown-hour
comparison is carried out exactly over `ℚ`.  String parsing (`safeNum`,
`new Date(...)`) is abstracted: a raw input record arrives with its date
already parsed to `Option ℤ` (`none` = invalid date, i.e. `NaN` time) and
its rate already parsed to `Option ℝ` (`none` = `safeNum` returned `null`).
Prose fields of alert records (`title`, `signal`, `whyCare`, `nextStep`,
`meta`) carry no logic and are omitted from the model.
-/

namespace FxApi

/-- `AlertSeverity` from `src/lib/fxApi.ts`. -/
inductive AlertSeverity where
  | CRITICAL
  | ALERT
  | WATCH
  | INFO
deriving DecidableEq

/-- Model of `AlertItem` (id, severity and the timestamp written by the
engine; prose fields and `meta` omitted, timestamp kept as epoch ms). -/
structure AlertItem where
  id : String
  severity : AlertSeverity
  timestampMs : ℤ
deriving DecidableEq

/-- Model of `Record<string, string>` used for the `firedAt` cooldown
ledger: an association list from alert-kind id to last-fired instant
(epoch ms).  Keys are unique in every ledger the engine produces. -/
abbrev Ledger := List (String × ℤ)

/-- JS object update `m[k] = v`: overwrite in place when the key exists,
append otherwise (JS property-insertion order semantics). -/
def recordSet (m : Ledger) (k : String) (v : ℤ) : Ledger :=
  if m.any (fun p => p.1 == k) then
    m.map (fun p => if p.1 == k then (k, v) else p)
  else
    m ++ [(k, v)]

/-- `COOLDOWN_HOURS` table from `buildAlerts` (lines 227-232). -/
def COOLDOWN_HOURS : AlertSeverity → ℚ
  | .CRITICAL => 12
  | .ALERT => 24
  | .WATCH => 24
  | .INFO => 6

/-- `canFire` (lines 234-240): an alert kind may fire if it has no ledger
entry, or if the elapsed time in hours since its entry is at least the
per-severity cooldown.  `hours = ageMs / (1000*60*60)` exactly, over `ℚ`. -/
def canFire (firedAt : Ledger) (now : ℤ) (id : String) (sev : AlertSeverity) : Bool :=
  match List.lookup id firedAt with
  | none => true
  | some prev => decide ((((now - prev : ℤ) : ℚ) / 3600000) ≥ COOLDOWN_HOURS sev)

/-- Mutable state of the rule-evaluation phase of `buildAlerts`:
the `alerts` array and the `firedAt` ledger. -/
structure FireState where
  alerts : List AlertItem
  firedAt : Ledger
deriving DecidableEq

/-- `fire` (lines 242-246): gate on `canFire`; on success push the alert
(stamped with the current instant) and overwrite the ledger entry. -/
def fire (now : ℤ) (id : String) (sev : AlertSeverity) (s : FireState) : FireState :=
  if canFire s.firedAt now id sev then
    { alerts := s.alerts ++ [⟨id, sev, now⟩], firedAt := recordSet s.firedAt id now }
  else
    s

/-- `mean` (lines 113-116): arithmetic mean, `0` on the empty list. -/
noncomputable def mean (xs : List ℝ) : ℝ :=
  if xs.length = 0 then 0 else xs.sum / xs.length

/-- `std` (lines 118-123): population standard deviation (the variance is
the *mean* of the squared deviations, i.e. division by `n`), and `0` for
fewer than two points. -/
noncomputable def std (xs : List ℝ) : ℝ :=
  if xs.length < 2 then 0
  else Real.sqrt (mean (xs.map (fun x => (x - mean xs) ^ 2)))

/-- The log-return loop shared by `rollingVolAnnualized` (lines 129-135):
for each adjacent pair `(a, b)` with both values positive, emit
`ln (b / a)`; other pairs are skipped. -/
noncomputable def logReturns (xs : List ℝ) : List ℝ :=
  (xs.zip xs.tail).filterMap
    (fun p => if p.1 ≤ 0 ∨ p.2 ≤ 0 then none else some (Real.log (p.2 / p.1)))

/-- `rollingVolAnnualized` (lines 125-140): requires strictly `window + 1`
price points, takes the trailing `window + 1` of them, computes log
returns, requires at least `max 10 (window - 2)` of them, and returns the
population stdev of the returns annualized by `√252`. -/
noncomputable def rollingVolAnnualized (rates : List ℝ) (window : ℕ) : Option ℝ :=
  if rates.length < window + 1 then none
  else if (logReturns (rates.drop (rates.length - (window + 1)))).length
      < max 10 (window - 2) then none
  else some (std (logReturns (rates.drop (rates.length - (window + 1)))) * Real.sqrt 252)

/-- Direction tag of a range break. -/
inductive RBDir where
  | UP
  | DOWN
deriving DecidableEq

/-- `rangeBreak` (lines 142-151): compare the latest price against the
min/max of the prior `lookback - 1` points (`slice(-lookback, -1)`).
The `prev = []` case (only reachable for `lookback ≤ 1`, never used by
the engine, which always passes `20`) is mapped to `none`. -/
noncomputable def rangeBreak (rates : List ℝ) (lookback : ℕ) : Option (RBDir × ℝ × ℝ) :=
  if rates.length < lookback then none
  else
    match (rates.drop (rates.length - lookback)).dropLast with
    | [] => none
    | h :: t =>
      if rates.getLastD 0 > t.foldl max h then
        some (RBDir.UP, t.foldl max h, rates.getLastD 0)
      else if rates.getLastD 0 < t.foldl min h then
        some (RBDir.DOWN, t.foldl min h, rates.getLastD 0)
      else none

/-- A raw input record of `buildAlerts` (`ApiPoint`), with the date and
rate fields already parsed (see the file header). -/
structure ApiPoint where
  t : Option ℤ
  rate : Option ℝ

/-- `LIVE` / `WAITING` diagnostics status. -/
inductive AlertStatus where
  | LIVE
  | WAITING
deriving DecidableEq

/-- Model of the `AlertPack` result (fields not touched by any claim —
`latest`, `series90`, the ISO date-range diagnostics — are omitted). -/
structure AlertPack where
  alerts : List AlertItem
  firedAt : Ledger
  zScore90 : Option ℝ
  status : AlertStatus
  numericPoints : ℕ
  totalPoints : ℕ

/-- Lines 156-163 of `buildAlerts`: drop records whose date failed to
parse (`Number.isFinite(p.t)`), then sort ascending by timestamp
(`Array.prototype.sort` with a numeric comparator is stable; modelled by
`mergeSort`). -/
def parseSort (points : List ApiPoint) : List ApiPoint :=
  (points.filter (fun p => p.t.isSome)).mergeSort
    (fun a b => decide (a.t.getD 0 ≤ b.t.getD 0))

/-- Line 166: the sub-list of parsed points whose rate is a valid number,
as `(timestamp, rate)` pairs. -/
def numericOf (points : List ApiPoint) : List (ℤ × ℝ) :=
  (parseSort points).filterMap (fun p => p.rate.map (fun r => (p.t.getD 0, r)))

/-- Line 202: the clean rate series. -/
def ratesOf (points : List ApiPoint) : List ℝ :=
  (numericOf points).map Prod.snd

/-- Lines 209-215: the 90-day z-score of the latest rate against the
trailing `min 90 n` rates, `none` when their (population) stdev is not
positive. -/
noncomputable def zScoreOf (rates : List ℝ) : Option ℝ :=
  if std (rates.drop (rates.length - min 90 rates.length)) > 0 then
    some ((rates.getLastD 0 - mean (rates.drop (rates.length - min 90 rates.length))) /
      std (rates.drop (rates.length - min 90 rates.length)))
  else none

/-- The "not enough history" alert pushed by the `WAITING` branch
(lines 189-198). -/
def waitingAlert (now : ℤ) : AlertItem :=
  ⟨"system:waiting_for_history", AlertSeverity.INFO, now⟩

/-- The "all clear" alert pushed when no rule fired (lines 330-340). -/
def allClearAlert (now : ℤ) : AlertItem :=
  ⟨"system:all_clear", AlertSeverity.INFO, now⟩

/-- Rule 1 (lines 248-283): z-score deviation tiers. -/
noncomputable def zRule (now : ℤ) (z : Option ℝ) (s : FireState) : FireState :=
  match z with
  | none => s
  | some zv =>
    if |zv| ≥ 3 then fire now "move:rare" AlertSeverity.CRITICAL s
    else if |zv| ≥ 2 then fire now "move:notable" AlertSeverity.ALERT s
    else if |zv| ≥ 1.5 then fire now "move:watch" AlertSeverity.WATCH s
    else s

/-- Rule 2 (lines 285-313): volatility jump, 30D over 90D. -/
noncomputable def volRule (now : ℤ) (v30 v90 : Option ℝ) (s : FireState) : FireState :=
  match v30, v90 with
  | some a, some b =>
    let r := a / max 1e-9 b
    if r ≥ 1.6 then fire now "vol:jump" AlertSeverity.ALERT s
    else if r ≥ 1.3 then fire now "vol:rising" AlertSeverity.WATCH s
    else s
  | _, _ => s

/-- Rule 3 (lines 315-328): 20-day range break. -/
noncomputable def rangeRule (now : ℤ) (rb : Option (RBDir × ℝ × ℝ)) (s : FireState) : FireState :=
  match rb with
  | some _ => fire now "range:break20" AlertSeverity.ALERT s
  | none => s

/-- `buildAlerts` (lines 153-345).  A single instant `now` stands for both
`new Date()` (line 154) and `Date.now()` (line 237).  The source guards its
early return with `status === "WAITING"` where
`status = numericPoints >= 40 ? "LIVE" : "WAITING"` (lines 172-188); the
branch condition is written here as the defining `numericPoints < 40`
directly, and each branch records the `status` value it corresponds to. -/
noncomputable def buildAlerts (now : ℤ) (points : List ApiPoint) (firedAt0 : Ledger) :
    AlertPack :=
  if (numericOf points).length < 40 then
    { alerts := [waitingAlert now], firedAt := firedAt0, zScore90 := none,
      status := AlertStatus.WAITING, numericPoints := (numericOf points).length,
      totalPoints := (parseSort points).length }
  else
    let rates := ratesOf points
    let z := zScoreOf rates
    let s1 := zRule now z ⟨[], firedAt0⟩
    let s2 := volRule now (rollingVolAnnualized rates 30) (rollingVolAnnualized rates 90) s1
    let s3 := rangeRule now (rangeBreak rates 20) s2
    let alerts := if s3.alerts = [] then [allClearAlert now] else s3.alerts
    { alerts := alerts, firedAt := s3.firedAt, zScore90 := z,
      status := AlertStatus.LIVE, numericPoints := (numericOf points).length,
      totalPoints := (parseSort points).length }

end FxApi

namespace FxMetrics

/-!
Embedding of `lib/fxMetrics.ts` (the "lenient" metrics-card path).  The
input of `computeFxRiskMetrics` is modelled as the already-cleaned rate
list (`Number(p.rate)` coercion plus the `Number.isFinite` filter of
lines 24-26 are the collaborator boundary; dates are unused by the
source function).
-/

/-- The simple-return loop of `computeFxRiskMetrics` (lines 44-50): for
each adjacent pair `(prev, cur)` with `prev ≠ 0`, emit `cur / prev - 1`. -/
noncomputable def simpleReturns (xs : List ℝ) : List ℝ :=
  (xs.zip xs.tail).filterMap
    (fun p => if p.1 = 0 then none else some (p.2 / p.1 - 1))

/-- `stdevSample` (lines 93-107): sample standard deviation with Bessel's
correction (division by `n - 1`), `none` for fewer than two points.  The
source's `Number.isFinite(variance)` guard cannot trigger over `ℝ` and is
not modelled; the `variance < 0` guard is kept verbatim. -/
noncomputable def stdevSample (xs : List ℝ) : Option ℝ :=
  if xs.length < 2 then none
  else
    let m := xs.sum / xs.length
    let sse := xs.foldl (fun acc x => acc + (x - m) * (x - m)) 0
    let v := sse / ((xs.length : ℝ) - 1)
    if v < 0 then none else some (Real.sqrt v)

/-- `annualize` (line 56). -/
noncomputable def annualize (sigmaDaily : ℝ) : ℝ :=
  sigmaDaily * Real.sqrt 252

/-- `volAnnUpTo` (lines 64-70), abstracted over the return series `rets`
it closes over: `none` below the 10-return floor, otherwise the
annualized sample stdev of the trailing `min maxReturns returnsCount`
returns. -/
noncomputable def volAnnUpTo (rets : List ℝ) (maxReturns : ℕ) : Option ℝ :=
  if rets.length < 10 then none
  else
    match stdevSample (rets.drop (rets.length - min maxReturns rets.length)) with
    | none => none
    | some sigma => some (annualize sigma)

/-- One step of the `computeMaxDrawdown` loop (lines 117-125), acting on
the `(peak, maxDd)` pair.  The `Number.isFinite(x)` skip cannot trigger
over `ℝ`. -/
noncomputable def ddStep (s : ℝ × ℝ) (x : ℝ) : ℝ × ℝ :=
  let peak := if x > s.1 then x else s.1
  let dd := if peak = 0 then 0 else (x - peak) / peak
  (peak, if dd < s.2 then dd else s.2)

/-- `computeMaxDrawdown` (lines 111-128): `none` for fewer than two
points, otherwise a forward pass with running peak starting at the first
rate and `maxDd` starting at `0`.  The final `Number.isFinite(maxDd)`
guard cannot trigger over `ℝ`. -/
noncomputable def computeMaxDrawdown (rates : List ℝ) : Option ℝ :=
  match rates with
  | [] => none
  | [_] => none
  | r0 :: rest => some ((rest.foldl ddStep (r0, 0)).2)

/-- Result record of `computeFxRiskMetrics`. -/
structure FxRiskMetrics where
  points : ℕ
  returnsCount : ℕ
  vol30Ann : Option ℝ
  vol90Ann : Option ℝ
  maxDrawdown : Option ℝ
  worstDailyMove : Option ℝ
  bestDailyMove : Option ℝ

/-- `computeFxRiskMetrics` (lines 23-91) on the cleaned rate list. -/
noncomputable def computeFxRiskMetrics (cleanRates : List ℝ) : FxRiskMetrics :=
  if cleanRates.length < 2 then
    { points := cleanRates.length, returnsCount := 0, vol30Ann := none,
      vol90Ann := none, maxDrawdown := none, worstDailyMove := none,
      bestDailyMove := none }
  else
    let rets := simpleReturns cleanRates
    { points := cleanRates.length
      returnsCount := rets.length
      vol30Ann := volAnnUpTo rets 30
      vol90Ann := volAnnUpTo rets 90
      maxDrawdown := computeMaxDrawdown cleanRates
      worstDailyMove :=
        match rets with
        | [] => none
        | h :: t => some (t.foldl min h)
      bestDailyMove :=
        match rets with
        | [] => none
        | h :: t => some (t.foldl max h) }

end FxMetrics

namespace RiskReport

/-- `Regime` labels of the risk-report route. -/
inductive Regime where
  | LOW
  | NORMAL
  | HIGH
deriving DecidableEq

/-- `classifyRegime` (risk-report route, lines 64-68): thresholds on an
annualized volatility *percentage*. -/
noncomputable def classifyRegime (volAnnPct : ℝ) : Regime :=
  if volAnnPct < 8 then Regime.LOW
  else if volAnnPct ≤ 15 then Regime.NORMAL
  else Regime.HIGH

end RiskReport

namespace Dashboard

/-- The regime label selected by the `volRegime` memo of
`DashboardClient.tsx` (lines 486-535): input is the window's annualized
volatility as a *decimal* (`0.12 = 12%`), `none` when unavailable.  Only
the badge label is modelled; colors and helper text carry no logic. -/
noncomputable def volRegimeLabel (volForWindow : Option ℝ) : String :=
  match volForWindow with
  | none => "—"
  | some v =>
    if v < 0.08 then "Low Vol"
    else if v < 0.15 then "Normal Vol"
    else "High Vol"

/-- Two-sided z critical values (lines 76-78). -/
noncomputable def Z50 : ℝ := 0.674
/-- 75% two-sided z critical value. -/
noncomputable def Z75 : ℝ := 1.15
/-- 95% two-sided z critical value. -/
noncomputable def Z95 : ℝ := 1.96

/-- A point of the fan chart (`FanPoint`, lines 60-73; the date label is
dropped — the point for horizon day `t` sits at index `t - 1`). -/
structure FanPoint where
  expected : ℝ
  base95 : ℝ
  band95 : ℝ
  base75 : ℝ
  band75 : ℝ
  base50 : ℝ
  band50 : ℝ
deriving Inhabited

/-- `buildFanChart` (lines 91-143): deterministic lognormal envelope with
`expected_t = spot * exp(muDaily * t)` and bands
`expected_t * exp(±z * sigmaDaily * √t)`, `sigmaDaily = annualVol / √252`,
for `t = 1..days`; empty when `spot ≤ 0` or `annualVol ≤ 0`. -/
noncomputable def buildFanChart (spot annualVol muDaily : ℝ) (days : ℕ) : List FanPoint :=
  if spot ≤ 0 then []
  else if annualVol ≤ 0 then []
  else
    let sigmaDaily := annualVol / Real.sqrt 252
    (List.range days).map (fun i =>
      let t : ℝ := ((i + 1 : ℕ) : ℝ)
      let expected := spot * Real.exp (muDaily * t)
      let st := sigmaDaily * Real.sqrt t
      { expected := expected
        base95 := expected * Real.exp (-Z95 * st)
        band95 := expected * Real.exp (Z95 * st) - expected * Real.exp (-Z95 * st)
        base75 := expected * Real.exp (-Z75 * st)
        band75 := expected * Real.exp (Z75 * st) - expected * Real.exp (-Z75 * st)
        base50 := expected * Real.exp (-Z50 * st)
        band50 := expected * Real.exp (Z50 * st) - expected * Real.exp (-Z50 * st) })

end Dashboard

namespace SpecSide

/-!
Definitions written from the *spec's* words (not from the source), used
only to compare a claim's wording against the embedded code.
-/

/-- Sample standard deviation as the spec words it for the z-score
("compute mean and sample stdev", Bessel-corrected per spec section 4.2);
`0` below two points so that the z-score is reported as unavailable. -/
noncomputable def sampleStdevSpec (xs : List ℝ) : ℝ :=
  if xs.length < 2 then 0
  else Real.sqrt (((xs.map (fun x => (x - FxApi.mean xs) ^ 2)).sum) / ((xs.length : ℝ) - 1))

/-- The 90-day z-score as claim C4 words it: `(latest - mean) / stdev`
with the *sample* standard deviation of the trailing `min 90 n` prices,
`null` when that stdev is `0` or fewer than two points are available. -/
noncomputable def zScoreSampleClaim (rates : List ℝ) : Option ℝ :=
  let n90 := min 90 rates.length
  let rates90 := rates.drop (rates.length - n90)
  if rates90.length < 2 ∨ sampleStdevSpec rates90 = 0 then none
  else some ((rates.getLastD 0 - FxApi.mean rates90) / sampleStdevSpec rates90)

/-- The metrics-card volatility as claim C6 words it: the annualized
sample standard deviation of *log* returns `ln (rate_i / rate_im1)` of
adjacent prices, with the same 10-return floor and trailing-window
slicing as `volAnnUpTo`. -/
noncomputable def logVolUpToClaim (cleanRates : List ℝ) (maxReturns : ℕ) : Option ℝ :=
  let rets := FxApi.logReturns cleanRates
  if rets.length < 10 then none
  else
    match FxMetrics.stdevSample (rets.drop (rets.length - min maxReturns rets.length)) with
    | none => none
    | some sigma => some (FxMetrics.annualize sigma)

end SpecSide

namespace FxApi

/-- Unfolding lemma for `List.lookup` on a cons cell, with a propositional
condition. -/
theorem lookup_cons_eq (a k : String) (b : ℤ) (es : List (String × ℤ)) :
    List.lookup a ((k, b) :: es) = if a = k then some b else List.lookup a es := by
  by_cases h : a = k
  · simp [List.lookup, h, if_pos]
  · have : (a == k) = false := beq_eq_false_iff_ne.mpr h
    simp [List.lookup, this, h]

/-- The overwrite map of `recordSet` does not disturb lookups of other
keys. -/
theorem lookup_map_overwrite (t : Ledger) (k k' : String) (v : ℤ) (hk : k' ≠ k) :
    List.lookup k' (t.map (fun p => if p.1 == k then (k, v) else p)) =
      List.lookup k' t := by
  induction t with
  | nil => rfl
  | cons q t ih =>
    rcases q with ⟨qk, qv⟩
    by_cases hq : qk = k
    · subst hq
      simp only [List.map_cons, beq_self_eq_true, if_true]
      rw [lookup_cons_eq, lookup_cons_eq, if_neg hk, if_neg hk, ih]
    · have hqf : (qk == k) = false := beq_eq_false_iff_ne.mpr hq
      simp only [List.map_cons, hqf, Bool.false_eq_true, if_false]
      rw [lookup_cons_eq, lookup_cons_eq, ih]

/-- The overwrite map of `recordSet` installs the new value when the key
occurs in the ledger. -/
theorem lookup_map_self (m : Ledger) (k : String) (v : ℤ)
    (hex : ∃ p ∈ m, p.1 = k) :
    List.lookup k (m.map (fun p => if p.1 == k then (k, v) else p)) = some v := by
  induction m with
  | nil => simp at hex
  | cons q t ih =>
    rcases q with ⟨qk, qv⟩
    by_cases hq : qk = k
    · subst hq
      simp only [List.map_cons, beq_self_eq_true, if_true]
      rw [lookup_cons_eq, if_pos rfl]
    · have hqf : (qk == k) = false := beq_eq_false_iff_ne.mpr hq
      simp only [List.map_cons, hqf, Bool.false_eq_true, if_false]
      rw [lookup_cons_eq, if_neg (fun h => hq h.symm)]
      apply ih
      rcases hex with ⟨p, hp, hpk⟩
      rcases List.mem_cons.mp hp with h | h
      · exfalso; apply hq; rw [← hpk, h]
      · exact ⟨p, h, hpk⟩

/-- Appending a fresh key to a ledger without that key behaves like a map
update. -/
theorem lookup_append_single (m : Ledger) (k k' : String) (v : ℤ)
    (hnok : ∀ p ∈ m, p.1 ≠ k) :
    List.lookup k' (m ++ [(k, v)]) = if k' = k then some v else List.lookup k' m := by
  induction m with
  | nil =>
    simp only [List.nil_append]
    rw [lookup_cons_eq]
  | cons q t ih =>
    rcases q with ⟨qk, qv⟩
    have hqk : qk ≠ k := hnok (qk, qv) (List.mem_cons_self _ _)
    rw [List.cons_append, lookup_cons_eq, lookup_cons_eq,
      ih (fun p hp => hnok p (List.mem_cons_of_mem _ hp))]
    by_cases h1 : k' = qk
    · rw [if_pos h1, if_neg (fun h2 => hqk (h1 ▸ h2 : qk = k)), if_pos h1]
    · rw [if_neg h1, if_neg h1]

/-- Looking a key up after `recordSet` finds the new value at that key and
leaves every other key's binding untouched. -/
theorem lookup_recordSet (m : Ledger) (k k' : String) (v : ℤ) :
    List.lookup k' (recordSet m k v) = if k' = k then some v else List.lookup k' m := by
  unfold recordSet
  by_cases hany : m.any (fun p => p.1 == k) = true
  · rw [if_pos hany]
    by_cases hk : k' = k
    · subst hk
      rw [if_pos rfl]
      apply lookup_map_self
      rcases List.any_eq_true.mp hany with ⟨p, hp, hpk⟩
      exact ⟨p, hp, beq_iff_eq.mp hpk⟩
    · rw [if_neg hk]
      exact lookup_map_overwrite m k k' v hk
  · rw [if_neg hany]
    apply lookup_append_single
    intro p hp hpk
    exact hany (List.any_eq_true.mpr ⟨p, hp, beq_iff_eq.mpr hpk⟩)

end FxApi

namespace FxApi

/-- `canFire` holds exactly when the ledger has no entry for the kind id,
or the elapsed hours since that entry are at least the per-severity
cooldown. -/
theorem canFire_iff (led : Ledger) (now : ℤ) (id : String) (sev : AlertSeverity) :
    canFire led now id sev = true ↔
      (List.lookup id led = none ∨
        ∃ prev, List.lookup id led = some prev ∧
          COOLDOWN_HOURS sev ≤ ((now - prev : ℤ) : ℚ) / 3600000) := by
  unfold canFire
  cases h : List.lookup id led with
  | none => simp
  | some prev => simp [h, ge_iff_le]

/-- The state mutation of a successful `fire`. -/
theorem fire_of_canFire (now : ℤ) (id : String) (sev : AlertSeverity) (s : FireState)
    (h : canFire s.firedAt now id sev = true) :
    fire now id sev s =
      { alerts := s.alerts ++ [⟨id, sev, now⟩], firedAt := recordSet s.firedAt id now } := by
  unfold fire
  rw [if_pos h]

/-- A suppressed `fire` is the identity. -/
theorem fire_of_not_canFire (now : ℤ) (id : String) (sev : AlertSeverity) (s : FireState)
    (h : ¬ canFire s.firedAt now id sev = true) :
    fire now id sev s = s := by
  unfold fire
  rw [if_neg h]

/-- `fire` cannot delete a ledger entry. -/
theorem fire_lookup_isSome (now : ℤ) (id : String) (sev : AlertSeverity) (s : FireState)
    (k : String) (h : (List.lookup k s.firedAt).isSome = true) :
    (List.lookup k (fire now id sev s).firedAt).isSome = true := by
  unfold fire
  split
  · simp only [lookup_recordSet]
    split
    · rfl
    · exact h
  · exact h

/-- The z-score rule cannot delete a ledger entry. -/
theorem zRule_lookup_isSome (now : ℤ) (z : Option ℝ) (s : FireState) (k : String)
    (h : (List.lookup k s.firedAt).isSome = true) :
    (List.lookup k (zRule now z s).firedAt).isSome = true := by
  unfold zRule
  rcases z with _ | zv
  · exact h
  · repeat' split
    all_goals first
      | exact fire_lookup_isSome _ _ _ _ _ h
      | exact h

/-- The volatility-jump rule cannot delete a ledger entry. -/
theorem volRule_lookup_isSome (now : ℤ) (v30 v90 : Option ℝ) (s : FireState) (k : String)
    (h : (List.lookup k s.firedAt).isSome = true) :
    (List.lookup k (volRule now v30 v90 s).firedAt).isSome = true := by
  unfold volRule
  rcases v30 with _ | a <;> rcases v90 with _ | b
  all_goals simp only
  any_goals exact h
  repeat' split
  all_goals first
    | exact fire_lookup_isSome _ _ _ _ _ h
    | exact h

/-- The range-break rule cannot delete a ledger entry. -/
theorem rangeRule_lookup_isSome (now : ℤ) (rb : Option (RBDir × ℝ × ℝ)) (s : FireState)
    (k : String) (h : (List.lookup k s.firedAt).isSome = true) :
    (List.lookup k (rangeRule now rb s).firedAt).isSome = true := by
  unfold rangeRule
  rcases rb with _ | p
  · exact h
  · exact fire_lookup_isSome _ _ _ _ _ h

/-- The `WAITING` branch of `buildAlerts` (lines 188-200): one INFO alert,
ledger untouched, no other rule evaluated. -/
theorem buildAlerts_waiting (now : ℤ) (pts : List ApiPoint) (led : Ledger)
    (h : (numericOf pts).length < 40) :
    buildAlerts now pts led =
      { alerts := [waitingAlert now], firedAt := led, zScore90 := none,
        status := AlertStatus.WAITING, numericPoints := (numericOf pts).length,
        totalPoints := (parseSort pts).length } := by
  unfold buildAlerts
  rw [if_pos h]

/-- The `LIVE` branch of `buildAlerts` (lines 202-344), written as the
three-rule chain followed by the all-clear backstop. -/
theorem buildAlerts_live (now : ℤ) (pts : List ApiPoint) (led : Ledger)
    (h : 40 ≤ (numericOf pts).length) :
    buildAlerts now pts led =
      { alerts :=
          if (rangeRule now (rangeBreak (ratesOf pts) 20)
                (volRule now (rollingVolAnnualized (ratesOf pts) 30)
                  (rollingVolAnnualized (ratesOf pts) 90)
                  (zRule now (zScoreOf (ratesOf pts)) ⟨[], led⟩))).alerts = [] then
            [allClearAlert now]
          else
            (rangeRule now (rangeBreak (ratesOf pts) 20)
              (volRule now (rollingVolAnnualized (ratesOf pts) 30)
                (rollingVolAnnualized (ratesOf pts) 90)
                (zRule now (zScoreOf (ratesOf pts)) ⟨[], led⟩))).alerts,
        firedAt :=
          (rangeRule now (rangeBreak (ratesOf pts) 20)
            (volRule now (rollingVolAnnualized (ratesOf pts) 30)
              (rollingVolAnnualized (ratesOf pts) 90)
              (zRule now (zScoreOf (ratesOf pts)) ⟨[], led⟩))).firedAt,
        zScore90 := zScoreOf (ratesOf pts), status := AlertStatus.LIVE,
        numericPoints := (numericOf pts).length,
        totalPoints := (parseSort pts).length } := by
  unfold buildAlerts
  rw [if_neg (by omega)]

end FxApi

namespace Claims

open FxApi

/-- C1 (amended: the gate opens when the elapsed time *equals or exceeds*
the per-severity cooldown window, not only when it strictly exceeds it).
For every alert kind put through the engine's cooldown gate `fire`: the
alert is appended to the output list iff the ledger has no entry for its
kind id or at least the per-severity cooldown (CRITICAL 12h, ALERT 24h,
WATCH 24h, INFO 6h) has elapsed since that entry's timestamp; on a
successful fire the ledger entry for the kind id is overwritten with the
current instant; on a suppressed fire the state (alerts and ledger) is
left unchanged; and `buildAlerts` never removes a ledger entry. -/
theorem c1_cooldown_gate (now : ℤ) (s : FireState) (id : String) (sev : AlertSeverity)
    (pts : List ApiPoint) (led : Ledger) (k : String) :
    ((fire now id sev s).alerts = s.alerts ++ [⟨id, sev, now⟩] ↔
      (List.lookup id s.firedAt = none ∨
        ∃ prev, List.lookup id s.firedAt = some prev ∧
          COOLDOWN_HOURS sev ≤ ((now - prev : ℤ) : ℚ) / 3600000)) ∧
    ((fire now id sev s).alerts ≠ s.alerts →
      List.lookup id (fire now id sev s).firedAt = some now) ∧
    ((fire now id sev s).alerts = s.alerts → fire now id sev s = s) ∧
    ((List.lookup k led).isSome = true →
      (List.lookup k (buildAlerts now pts led).firedAt).isSome = true) := by
  refine ⟨?_, ?_, ?_, ?_⟩
  · rw [← canFire_iff]
    constructor
    · intro h
      by_contra hcf
      rw [fire_of_not_canFire _ _ _ _ hcf] at h
      have := congrArg List.length h
      simp at this
    · intro h
      rw [fire_of_canFire _ _ _ _ h]
  · intro h
    have hcf : canFire s.firedAt now id sev = true := by
      by_contra hcf
      exact h (by rw [fire_of_not_canFire _ _ _ _ hcf])
    rw [fire_of_canFire _ _ _ _ hcf]
    simp [lookup_recordSet]
  · intro h
    by_cases hcf : canFire s.firedAt now id sev = true
    · exfalso
      rw [fire_of_canFire _ _ _ _ hcf] at h
      have := congrArg List.length h
      simp at this
    · exact fire_of_not_canFire _ _ _ _ hcf
  · intro h
    by_cases h40 : (numericOf pts).length < 40
    · rw [buildAlerts_waiting now pts led h40]
      exact h
    · rw [buildAlerts_live now pts led (by omega)]
      exact rangeRule_lookup_isSome _ _ _ _
        (volRule_lookup_isSome _ _ _ _ _ (zRule_lookup_isSome _ _ _ _ h))

/-- Witness for C1: a kind with no ledger entry fires, and a concrete
pre-existing ledger entry survives a `buildAlerts` call. -/
theorem c1_cooldown_gate_witness :
    (fire 0 "move:watch" AlertSeverity.WATCH ⟨[], []⟩).alerts =
      [⟨"move:watch", AlertSeverity.WATCH, 0⟩] ∧
    (List.lookup "vol:jump" (buildAlerts 0 [] [("vol:jump", 5)]).firedAt).isSome = true := by
  constructor
  · exact (c1_cooldown_gate 0 ⟨[], []⟩ "move:watch" AlertSeverity.WATCH [] [] "x").1.mpr
      (Or.inl rfl)
  · exact (c1_cooldown_gate 0 ⟨[], []⟩ "move:watch" AlertSeverity.WATCH []
      [("vol:jump", 5)] "vol:jump").2.2.2 (by simp [List.lookup])

/-- Counterexample to C1 as stated: with a ledger entry for `move:rare`
stamped at instant `0` and the current instant exactly 12 hours later
(43200000 ms), the elapsed time does not strictly exceed the CRITICAL
12-hour window, yet the engine fires the alert (its gate is `≥`, not
`>`). -/
theorem c1_cooldown_gate_cex :
    (fire 43200000 "move:rare" AlertSeverity.CRITICAL ⟨[], [("move:rare", 0)]⟩).alerts =
      [⟨"move:rare", AlertSeverity.CRITICAL, 43200000⟩] ∧
    ¬ (List.lookup "move:rare" ([("move:rare", (0 : ℤ))] : Ledger) = none ∨
        ((43200000 - 0 : ℤ) : ℚ) / 3600000 > COOLDOWN_HOURS AlertSeverity.CRITICAL) := by
  constructor
  · have hcf : canFire [("move:rare", 0)] 43200000 "move:rare" AlertSeverity.CRITICAL
        = true := by
      unfold canFire
      norm_num [List.lookup, COOLDOWN_HOURS]
    rw [fire_of_canFire _ _ _ _ hcf]
    rfl
  · intro h
    rcases h with h | h
    · simp [List.lookup] at h
    · norm_num [COOLDOWN_HOURS] at h

end Claims

namespace FxApi

/-- A list whose records all carry timestamp `some 0` is already valid
and sorted, so the normalizer returns it unchanged. -/
theorem parseSort_of_t_zero (pts : List ApiPoint) (h : ∀ p ∈ pts, p.t = some 0) :
    parseSort pts = pts := by
  unfold parseSort
  rw [List.filter_eq_self.mpr (fun p hp => by rw [h p hp]; rfl)]
  apply List.mergeSort_of_sorted
  apply List.pairwise_of_forall_mem_list
  intro a ha b hb
  rw [h a ha, h b hb]
  simp

/-- `filterMap` over a constant list with a succeeding function. -/
theorem filterMap_replicate_some {α β : Type} (f : α → Option β) (a : α) (b : β)
    (h : f a = some b) (n : ℕ) :
    (List.replicate n a).filterMap f = List.replicate n b := by
  induction n with
  | zero => rfl
  | succ n ih => simp [List.replicate_succ, List.filterMap_cons, h, ih]

/-- The numeric pairs extracted from a flat input series. -/
theorem numericOf_flat (n : ℕ) (c : ℝ) :
    numericOf (List.replicate n ⟨some 0, some c⟩) = List.replicate n (0, c) := by
  unfold numericOf
  rw [parseSort_of_t_zero _ (fun p hp => by rw [List.eq_of_mem_replicate hp])]
  exact filterMap_replicate_some (fun (p : ApiPoint) => p.rate.map (fun r => (p.t.getD 0, r)))
    ⟨some 0, some c⟩ (0, c) rfl n

/-- The rate series extracted from a flat input series. -/
theorem ratesOf_flat (n : ℕ) (c : ℝ) :
    ratesOf (List.replicate n ⟨some 0, some c⟩) = List.replicate n c := by
  unfold ratesOf
  rw [numericOf_flat, List.map_replicate]

/-- The mean of a constant list is that constant. -/
theorem mean_replicate (n : ℕ) (hn : n ≠ 0) (c : ℝ) :
    mean (List.replicate n c) = c := by
  unfold mean
  rw [List.length_replicate, if_neg hn, List.sum_replicate, nsmul_eq_mul]
  field_simp

/-- The population stdev of a constant list is zero. -/
theorem std_replicate (n : ℕ) (c : ℝ) : std (List.replicate n c) = 0 := by
  unfold std
  rw [List.length_replicate]
  by_cases h : n < 2
  · rw [if_pos h]
  · rw [if_neg h, mean_replicate n (by omega) c, List.map_replicate,
      show (c - c) ^ 2 = (0 : ℝ) by ring, mean_replicate n (by omega) 0, Real.sqrt_zero]

/-- `getLastD` of a constant list. -/
theorem getLastD_replicate : ∀ (n : ℕ) (c d : ℝ),
    (List.replicate n c).getLastD d = if n = 0 then d else c := by
  intro n
  induction n with
  | zero => intro c d; simp
  | succ m ih =>
    intro c d
    rw [List.replicate_succ, List.getLastD_cons, ih]
    by_cases h : m = 0 <;> simp [h]

/-- Log returns of a flat positive series are all zero. -/
theorem logReturns_replicate (n : ℕ) (c : ℝ) (hc : 0 < c) :
    logReturns (List.replicate n c) = List.replicate (n - 1) 0 := by
  unfold logReturns
  rw [List.tail_replicate, List.zip_replicate, show min n (n - 1) = n - 1 by omega]
  apply filterMap_replicate_some
  rw [if_neg (by push_neg; constructor <;> linarith), div_self (ne_of_gt hc), Real.log_one]

/-- The strict rolling volatility of a flat positive series is zero (for
the window sizes the engine uses). -/
theorem rollingVolAnnualized_replicate (n w : ℕ) (c : ℝ) (hc : 0 < c)
    (hw : 10 ≤ w) (hn : w + 1 ≤ n) :
    rollingVolAnnualized (List.replicate n c) w = some 0 := by
  unfold rollingVolAnnualized
  rw [List.length_replicate, if_neg (by omega), List.drop_replicate,
    show n - (n - (w + 1)) = w + 1 by omega, logReturns_replicate _ _ hc,
    List.length_replicate, show w + 1 - 1 = w by omega, if_neg (by omega),
    std_replicate, zero_mul]

/-- `foldl min` over a constant list keeps the seed equal to the constant. -/
theorem foldl_min_replicate (m : ℕ) (c : ℝ) : (List.replicate m c).foldl min c = c := by
  induction m with
  | zero => rfl
  | succ k ih => rw [List.replicate_succ, List.foldl_cons, min_self]; exact ih

/-- `foldl max` over a constant list keeps the seed equal to the constant. -/
theorem foldl_max_replicate (m : ℕ) (c : ℝ) : (List.replicate m c).foldl max c = c := by
  induction m with
  | zero => rfl
  | succ k ih => rw [List.replicate_succ, List.foldl_cons, max_self]; exact ih

/-- A flat series can never break its own range. -/
theorem rangeBreak_replicate (n : ℕ) (c : ℝ) (hn : 20 ≤ n) :
    rangeBreak (List.replicate n c) 20 = none := by
  unfold rangeBreak
  rw [List.length_replicate, if_neg (by omega), List.drop_replicate,
    show n - (n - 20) = 20 by omega, List.dropLast_replicate,
    show (20 : ℕ) - 1 = 19 by omega,
    show List.replicate 19 c = c :: List.replicate 18 c from rfl]
  dsimp only
  rw [getLastD_replicate n c 0, if_neg (show ¬ n = 0 by omega),
    foldl_min_replicate, foldl_max_replicate, if_neg (lt_irrefl c), if_neg (lt_irrefl c)]

/-- The 90-day z-score of a flat series is unavailable (zero stdev). -/
theorem zScoreOf_replicate (n : ℕ) (c : ℝ) :
    zScoreOf (List.replicate n c) = none := by
  unfold zScoreOf
  rw [List.length_replicate, List.drop_replicate, std_replicate, if_neg (lt_irrefl 0)]

/-- The z-score rule is a no-op when the z-score is unavailable. -/
theorem zRule_none (now : ℤ) (s : FireState) : zRule now none s = s := rfl

/-- The volatility rule is a no-op when both windows report zero
volatility. -/
theorem volRule_zero (now : ℤ) (s : FireState) :
    volRule now (some 0) (some 0) s = s := by
  unfold volRule
  dsimp only
  rw [if_neg (by rw [zero_div]; norm_num), if_neg (by rw [zero_div]; norm_num)]

/-- The range rule is a no-op when no break was detected. -/
theorem rangeRule_none (now : ℤ) (s : FireState) : rangeRule now none s = s := rfl

end FxApi

namespace FxApi

/-- A `fire` that left the alerts list empty was suppressed, and the list
was empty before. -/
theorem fire_alerts_nil (now : ℤ) (id : String) (sev : AlertSeverity) (s : FireState)
    (h : (fire now id sev s).alerts = []) : fire now id sev s = s ∧ s.alerts = [] := by
  by_cases hcf : canFire s.firedAt now id sev = true
  · exfalso
    rw [fire_of_canFire _ _ _ _ hcf] at h
    simp at h
  · rw [fire_of_not_canFire _ _ _ _ hcf] at h ⊢
    exact ⟨rfl, h⟩

/-- A z-score rule step that left the alerts list empty was a no-op. -/
theorem zRule_alerts_nil (now : ℤ) (z : Option ℝ) (s : FireState)
    (h : (zRule now z s).alerts = []) : zRule now z s = s ∧ s.alerts = [] := by
  unfold zRule at h ⊢
  rcases z with _ | zv
  · exact ⟨rfl, h⟩
  · revert h
    repeat' split
    all_goals intro h
    all_goals first
      | exact fire_alerts_nil _ _ _ _ h
      | exact ⟨rfl, h⟩

/-- A volatility rule step that left the alerts list empty was a no-op. -/
theorem volRule_alerts_nil (now : ℤ) (v30 v90 : Option ℝ) (s : FireState)
    (h : (volRule now v30 v90 s).alerts = []) : volRule now v30 v90 s = s ∧ s.alerts = [] := by
  unfold volRule at h ⊢
  rcases v30 with _ | a <;> rcases v90 with _ | b
  · exact ⟨rfl, h⟩
  · exact ⟨rfl, h⟩
  · exact ⟨rfl, h⟩
  · revert h
    dsimp only
    repeat' split
    all_goals intro h
    all_goals first
      | exact fire_alerts_nil _ _ _ _ h
      | exact ⟨rfl, h⟩

/-- A range rule step that left the alerts list empty was a no-op. -/
theorem rangeRule_alerts_nil (now : ℤ) (rb : Option (RBDir × ℝ × ℝ)) (s : FireState)
    (h : (rangeRule now rb s).alerts = []) : rangeRule now rb s = s ∧ s.alerts = [] := by
  unfold rangeRule at h ⊢
  rcases rb with _ | p
  · exact ⟨rfl, h⟩
  · exact fire_alerts_nil _ _ _ _ h

/-- If the whole rule chain ends with no alerts, it never touched the
state at all. -/
theorem chain_alerts_nil (now : ℤ) (z v30 v90 : Option ℝ)
    (rb : Option (RBDir × ℝ × ℝ)) (s : FireState)
    (h : (rangeRule now rb (volRule now v30 v90 (zRule now z s))).alerts = []) :
    rangeRule now rb (volRule now v30 v90 (zRule now z s)) = s := by
  obtain ⟨e3, h3⟩ := rangeRule_alerts_nil now rb _ h
  obtain ⟨e2, h2⟩ := volRule_alerts_nil now v30 v90 _ h3
  obtain ⟨e1, _⟩ := zRule_alerts_nil now z s h2
  rw [e3, e2, e1]

end FxApi

namespace Claims

open FxApi

/-- C2: with fewer than 40 valid numeric points the engine returns status
`WAITING` and exactly the single INFO alert `system:waiting_for_history`
(and does not touch the ledger — no other rule is evaluated); with 40 or
more valid numeric points the status is `LIVE` and rule evaluation
proceeds. -/
theorem c2_readiness_gate (now : ℤ) (pts : List ApiPoint) (led : Ledger) :
    ((numericOf pts).length < 40 →
      (buildAlerts now pts led).status = AlertStatus.WAITING ∧
      (buildAlerts now pts led).alerts = [waitingAlert now] ∧
      (buildAlerts now pts led).firedAt = led) ∧
    (40 ≤ (numericOf pts).length →
      (buildAlerts now pts led).status = AlertStatus.LIVE) := by
  constructor
  · intro h
    rw [buildAlerts_waiting now pts led h]
    exact ⟨rfl, rfl, rfl⟩
  · intro h
    rw [buildAlerts_live now pts led h]

/-- Witness for C2: a series of 39 valid points yields `WAITING` with the
single waiting alert; 40 valid points yield `LIVE`. -/
theorem c2_readiness_gate_witness :
    ((numericOf (List.replicate 39 (⟨some 0, some 1⟩ : ApiPoint))).length < 40 ∧
      (buildAlerts 0 (List.replicate 39 ⟨some 0, some 1⟩) []).status = AlertStatus.WAITING ∧
      (buildAlerts 0 (List.replicate 39 ⟨some 0, some 1⟩) []).alerts = [waitingAlert 0]) ∧
    (40 ≤ (numericOf (List.replicate 40 (⟨some 0, some 1⟩ : ApiPoint))).length ∧
      (buildAlerts 0 (List.replicate 40 ⟨some 0, some 1⟩) []).status = AlertStatus.LIVE) := by
  have h39 : (numericOf (List.replicate 39 (⟨some 0, some 1⟩ : ApiPoint))).length < 40 := by
    rw [numericOf_flat]
    simp
  have h40 : 40 ≤ (numericOf (List.replicate 40 (⟨some 0, some 1⟩ : ApiPoint))).length := by
    rw [numericOf_flat]
    simp
  refine ⟨⟨h39, ?_, ?_⟩, h40, ?_⟩
  · exact ((c2_readiness_gate 0 (List.replicate 39 ⟨some 0, some 1⟩) []).1 h39).1
  · exact ((c2_readiness_gate 0 (List.replicate 39 ⟨some 0, some 1⟩) []).1 h39).2.1
  · exact (c2_readiness_gate 0 (List.replicate 40 ⟨some 0, some 1⟩) []).2 h40

/-- C3: in a `LIVE` invocation in which no rule fired, the engine emits
exactly the single INFO alert `system:all_clear`, which is not cooldown
gated and is never written to the ledger — the returned ledger is the
input ledger unchanged, whatever it contains. -/
theorem c3_all_clear (now : ℤ) (pts : List ApiPoint) (led : Ledger)
    (hlive : 40 ≤ (numericOf pts).length)
    (hempty : (rangeRule now (rangeBreak (ratesOf pts) 20)
        (volRule now (rollingVolAnnualized (ratesOf pts) 30)
          (rollingVolAnnualized (ratesOf pts) 90)
          (zRule now (zScoreOf (ratesOf pts)) ⟨[], led⟩))).alerts = []) :
    (buildAlerts now pts led).alerts = [allClearAlert now] ∧
    (buildAlerts now pts led).firedAt = led := by
  rw [buildAlerts_live now pts led hlive]
  refine ⟨?_, ?_⟩
  · dsimp only
    rw [if_pos hempty]
  · dsimp only
    rw [chain_alerts_nil _ _ _ _ _ _ hempty]

/-- Witness for C3: a flat series of 200 identical prices (rate 50) fires
no rule, so a single `system:all_clear` INFO alert is produced and a
ledger already holding a `system:all_clear` key is returned unchanged. -/
theorem c3_all_clear_witness :
    40 ≤ (numericOf (List.replicate 200 (⟨some 0, some 50⟩ : ApiPoint))).length ∧
    (buildAlerts 7 (List.replicate 200 (⟨some 0, some 50⟩ : ApiPoint))
        [("system:all_clear", 0)]).alerts = [allClearAlert 7] ∧
    (buildAlerts 7 (List.replicate 200 (⟨some 0, some 50⟩ : ApiPoint))
        [("system:all_clear", 0)]).firedAt = [("system:all_clear", 0)] := by
  have h40 : 40 ≤ (numericOf (List.replicate 200 (⟨some 0, some 50⟩ : ApiPoint))).length := by
    rw [numericOf_flat, List.length_replicate]
    norm_num
  have hempty : (rangeRule 7
      (rangeBreak (ratesOf (List.replicate 200 (⟨some 0, some 50⟩ : ApiPoint))) 20)
      (volRule 7
        (rollingVolAnnualized (ratesOf (List.replicate 200 (⟨some 0, some 50⟩ : ApiPoint))) 30)
        (rollingVolAnnualized (ratesOf (List.replicate 200 (⟨some 0, some 50⟩ : ApiPoint))) 90)
        (zRule 7 (zScoreOf (ratesOf (List.replicate 200 (⟨some 0, some 50⟩ : ApiPoint))))
          ⟨[], [("system:all_clear", 0)]⟩))).alerts = [] := by
    rw [ratesOf_flat, zScoreOf_replicate, zRule_none,
      rollingVolAnnualized_replicate 200 30 50 (by norm_num) (by norm_num) (by norm_num),
      rollingVolAnnualized_replicate 200 90 50 (by norm_num) (by norm_num) (by norm_num),
      volRule_zero, rangeBreak_replicate 200 50 (by norm_num), rangeRule_none]
  exact ⟨h40,
    (c3_all_clear 7 _ _ h40 hempty).1,
    (c3_all_clear 7 _ _ h40 hempty).2⟩

/-- C9: `buildAlerts` always returns a non-empty alerts list — the
`WAITING` branch pushes the single waiting alert, and in the `LIVE`
branch `system:all_clear` is pushed whenever the rule chain produced no
alert (including when every triggered rule was cooldown-suppressed). -/
theorem c9_alerts_nonempty (now : ℤ) (pts : List ApiPoint) (led : Ledger) :
    (buildAlerts now pts led).alerts ≠ [] := by
  by_cases h40 : (numericOf pts).length < 40
  · rw [buildAlerts_waiting now pts led h40]
    simp
  · rw [buildAlerts_live now pts led (by omega)]
    dsimp only
    split
    · simp
    · next h => exact h

end Claims

namespace FxMetrics

/-- One drawdown step keeps the accumulator non-positive. -/
theorem ddStep_snd_nonpos (s : ℝ × ℝ) (x : ℝ) (h : s.2 ≤ 0) : (ddStep s x).2 ≤ 0 := by
  unfold ddStep
  dsimp only
  repeat' split
  all_goals first
    | exact h
    | linarith

/-- The drawdown fold keeps the accumulator non-positive. -/
theorem foldl_ddStep_snd_nonpos (l : List ℝ) (s : ℝ × ℝ) (h : s.2 ≤ 0) :
    (l.foldl ddStep s).2 ≤ 0 := by
  induction l generalizing s with
  | nil => exact h
  | cons x t ih => exact ih _ (ddStep_snd_nonpos s x h)

/-- On a non-decreasing step the peak moves to the new price and the
accumulated drawdown stays `0`. -/
theorem ddStep_self (p x : ℝ) (h : p ≤ x) : ddStep (p, 0) x = (x, 0) := by
  unfold ddStep
  dsimp only
  by_cases hx : x > p
  · rw [if_pos hx]
    rw [sub_self, zero_div, ite_self, if_neg (lt_irrefl (0 : ℝ))]
  · have hpx : p = x := le_antisymm h (not_lt.mp hx)
    subst hpx
    rw [if_neg hx]
    rw [sub_self, zero_div, ite_self, if_neg (lt_irrefl (0 : ℝ))]

/-- The drawdown fold over a non-decreasing tail never records a
negative drawdown. -/
theorem foldl_ddStep_chain : ∀ (l : List ℝ) (p : ℝ), List.Chain (· ≤ ·) p l →
    ∃ q, l.foldl ddStep (p, 0) = (q, 0) := by
  intro l
  induction l with
  | nil => exact fun p _ => ⟨p, rfl⟩
  | cons x t ih =>
    intro p h
    cases h with
    | cons hpx ht =>
      rw [List.foldl_cons, ddStep_self p x hpx]
      exact ih x ht

end FxMetrics

namespace Claims

/-- C7: `computeMaxDrawdown` is `none` exactly for series of fewer than
two points; any computed drawdown is `≤ 0`; and a monotonically
non-decreasing series has drawdown exactly `0`. -/
theorem c7_max_drawdown (rates : List ℝ) :
    (FxMetrics.computeMaxDrawdown rates = none ↔ rates.length < 2) ∧
    (∀ d, FxMetrics.computeMaxDrawdown rates = some d → d ≤ 0) ∧
    (rates.Chain' (· ≤ ·) → 2 ≤ rates.length → FxMetrics.computeMaxDrawdown rates = some 0) := by
  refine ⟨?_, ?_, ?_⟩
  · unfold FxMetrics.computeMaxDrawdown
    match rates with
    | [] => simp
    | [x] => simp
    | r0 :: r1 :: rest => simp
  · intro d hd
    unfold FxMetrics.computeMaxDrawdown at hd
    match rates, hd with
    | r0 :: r1 :: rest, hd =>
      have := FxMetrics.foldl_ddStep_snd_nonpos (r1 :: rest) (r0, 0) le_rfl
      rw [Option.some_inj.mp hd] at this
      exact this
  · intro hchain hlen
    match rates, hlen with
    | r0 :: r1 :: rest, _ =>
      have hc : List.Chain (· ≤ ·) r0 (r1 :: rest) := hchain
      obtain ⟨q, hq⟩ := FxMetrics.foldl_ddStep_chain (r1 :: rest) r0 hc
      unfold FxMetrics.computeMaxDrawdown
      dsimp only
      rw [hq]

/-- Witness for C7: the spec's example series `[1,2,3,4,5]` has maximum
drawdown exactly `0`. -/
theorem c7_max_drawdown_witness :
    FxMetrics.computeMaxDrawdown [(1 : ℝ), 2, 3, 4, 5] = some 0 :=
  (c7_max_drawdown [(1 : ℝ), 2, 3, 4, 5]).2.2
    (by norm_num [List.chain'_cons, List.chain'_singleton]) (by norm_num)

end Claims

namespace FxMetrics

/-- The sum-of-squares accumulator of `stdevSample` never goes negative. -/
theorem foldl_sq_nonneg (l : List ℝ) (m : ℝ) : ∀ a : ℝ, 0 ≤ a →
    0 ≤ l.foldl (fun acc x => acc + (x - m) * (x - m)) a := by
  induction l with
  | nil => exact fun a ha => ha
  | cons x t ih =>
    intro a ha
    rw [List.foldl_cons]
    exact ih _ (by nlinarith [mul_self_nonneg (x - m)])

/-- `stdevSample` succeeds on any list of at least two points (the
`variance < 0` guard can never trigger). -/
theorem stdevSample_isSome (xs : List ℝ) (h : 2 ≤ xs.length) :
    stdevSample xs =
      some (Real.sqrt
        ((xs.foldl (fun acc x => acc + (x - xs.sum / xs.length) * (x - xs.sum / xs.length)) 0)
          / ((xs.length : ℝ) - 1))) := by
  unfold stdevSample
  rw [if_neg (by omega)]
  dsimp only
  rw [if_neg]
  push_neg
  apply div_nonneg
  · exact foldl_sq_nonneg xs _ 0 le_rfl
  · have : (2 : ℝ) ≤ (xs.length : ℝ) := by exact_mod_cast h
    linarith

/-- `volAnnUpTo` is `null` exactly below the 10-return floor (for any
window of at least two returns). -/
theorem volAnnUpTo_eq_none_iff (rets : List ℝ) (k : ℕ) (hk : 2 ≤ k) :
    volAnnUpTo rets k = none ↔ rets.length < 10 := by
  unfold volAnnUpTo
  by_cases h : rets.length < 10
  · rw [if_pos h]
    simp [h]
  · rw [if_neg h]
    have hlen : 2 ≤ (rets.drop (rets.length - min k rets.length)).length := by
      rw [List.length_drop]
      omega
    rw [stdevSample_isSome _ hlen]
    simp [h]

end FxMetrics

namespace Claims

/-- C10: in `computeFxRiskMetrics`, `vol30Ann` is `null` iff `vol90Ann`
is `null` — both are gated by the same 10-return floor, below which each
is `null` and at or above which each is a value (the slice then has at
least 2 elements, so the sample stdev is defined). -/
theorem c10_vol30_null_iff_vol90_null (cleanRates : List ℝ) :
    ((FxMetrics.computeFxRiskMetrics cleanRates).vol30Ann = none ↔
      (FxMetrics.computeFxRiskMetrics cleanRates).vol90Ann = none) ∧
    (FxMetrics.volAnnUpTo (FxMetrics.simpleReturns cleanRates) 30 = none ↔
      (FxMetrics.simpleReturns cleanRates).length < 10) ∧
    (FxMetrics.volAnnUpTo (FxMetrics.simpleReturns cleanRates) 90 = none ↔
      (FxMetrics.simpleReturns cleanRates).length < 10) := by
  refine ⟨?_, FxMetrics.volAnnUpTo_eq_none_iff _ 30 (by norm_num),
    FxMetrics.volAnnUpTo_eq_none_iff _ 90 (by norm_num)⟩
  unfold FxMetrics.computeFxRiskMetrics
  by_cases h2 : cleanRates.length < 2
  · rw [if_pos h2]
  · rw [if_neg h2]
    dsimp only
    rw [FxMetrics.volAnnUpTo_eq_none_iff _ 30 (by norm_num),
      FxMetrics.volAnnUpTo_eq_none_iff _ 90 (by norm_num)]

end Claims

namespace Claims

/-- C5 evaluation at the boundaries: the report-route classifier
`classifyRegime` matches the claimed thresholds (7.999 LOW, 8 NORMAL,
15 NORMAL, 15.001 HIGH), but the dashboard badge classifier labels an
annualized volatility of exactly 15% (decimal 0.15) as "High Vol"
because its Normal branch tests `v < 0.15` — contradicting the claim
(and the code's own threshold comment) that 15.0 is NORMAL. -/
theorem c5_regime_boundary_eval :
    RiskReport.classifyRegime 7.999 = RiskReport.Regime.LOW ∧
    RiskReport.classifyRegime 8 = RiskReport.Regime.NORMAL ∧
    RiskReport.classifyRegime 15 = RiskReport.Regime.NORMAL ∧
    RiskReport.classifyRegime 15.001 = RiskReport.Regime.HIGH ∧
    Dashboard.volRegimeLabel (some 0.15) = "High Vol" ∧
    Dashboard.volRegimeLabel (some 0.15) ≠ "Normal Vol" := by
  refine ⟨?_, ?_, ?_, ?_, ?_, ?_⟩
  · unfold RiskReport.classifyRegime
    rw [if_pos (by norm_num)]
  · unfold RiskReport.classifyRegime
    rw [if_neg (by norm_num), if_pos (by norm_num)]
  · unfold RiskReport.classifyRegime
    rw [if_neg (by norm_num), if_pos (by norm_num)]
  · unfold RiskReport.classifyRegime
    rw [if_neg (by norm_num), if_neg (by norm_num)]
  · unfold Dashboard.volRegimeLabel
    dsimp only
    rw [if_neg (by norm_num), if_neg (by norm_num)]
  · unfold Dashboard.volRegimeLabel
    dsimp only
    rw [if_neg (by norm_num), if_neg (by norm_num)]
    decide

/-- C8: for positive spot and positive annualized volatility, the fan
chart produced by `buildFanChart` (as called by the dashboard, with
drift `muDaily = 0` and a 30-day horizon) has exactly 30 points; point
`t = i + 1` carries `expected_t = spot * exp(mu * t)` with the three
confidence bands `expected_t * exp(±z * sigmaDaily * sqrt t)` for
`z ∈ {0.674, 1.15, 1.96}` and `sigmaDaily = annualVol / sqrt 252` (for
every drift `mu`); and the 95% band width at `t = 30` strictly exceeds
the width at `t = 1`. -/
theorem c8_fan_chart (spot vol : ℝ) (hs : 0 < spot) (hv : 0 < vol) :
    (Dashboard.buildFanChart spot vol 0 30).length = 30 ∧
    (∀ mu : ℝ, ∀ i : ℕ, i < 30 →
      (Dashboard.buildFanChart spot vol mu 30)[i]? =
        some (
          let t : ℝ := ((i + 1 : ℕ) : ℝ)
          let expected := spot * Real.exp (mu * t)
          let st := vol / Real.sqrt 252 * Real.sqrt t
          { expected := expected
            base95 := expected * Real.exp (-Dashboard.Z95 * st)
            band95 := expected * Real.exp (Dashboard.Z95 * st) -
              expected * Real.exp (-Dashboard.Z95 * st)
            base75 := expected * Real.exp (-Dashboard.Z75 * st)
            band75 := expected * Real.exp (Dashboard.Z75 * st) -
              expected * Real.exp (-Dashboard.Z75 * st)
            base50 := expected * Real.exp (-Dashboard.Z50 * st)
            band50 := expected * Real.exp (Dashboard.Z50 * st) -
              expected * Real.exp (-Dashboard.Z50 * st) })) ∧
    ((Dashboard.buildFanChart spot vol 0 30).getD 0 default).band95 <
      ((Dashboard.buildFanChart spot vol 0 30).getD 29 default).band95 := by
  have hns : ¬ spot ≤ 0 := not_le.mpr hs
  have hnv : ¬ vol ≤ 0 := not_le.mpr hv
  refine ⟨?_, ?_, ?_⟩
  · unfold Dashboard.buildFanChart
    rw [if_neg hns, if_neg hnv]
    rw [List.length_map, List.length_range]
  · intro mu i hi
    unfold Dashboard.buildFanChart
    rw [if_neg hns, if_neg hnv]
    simp only [List.getElem?_map, List.getElem?_range, hi, if_pos]
    rfl
  · unfold Dashboard.buildFanChart
    rw [if_neg hns, if_neg hnv]
    rw [List.getD_eq_getElem?_getD, List.getD_eq_getElem?_getD]
    simp only [List.getElem?_map, List.getElem?_range]
    norm_num
    have hsig : 0 < vol / Real.sqrt 252 := div_pos hv (Real.sqrt_pos.mpr (by norm_num))
    have hZ : (0 : ℝ) < Dashboard.Z95 := by unfold Dashboard.Z95; norm_num
    have h30 : (1 : ℝ) < Real.sqrt 30 := by
      have h := Real.sqrt_lt_sqrt (by norm_num : (0 : ℝ) ≤ 1) (by norm_num : (1 : ℝ) < 30)
      rwa [Real.sqrt_one] at h
    have h1 : Dashboard.Z95 * (vol / Real.sqrt 252) <
        Dashboard.Z95 * (vol / Real.sqrt 252 * Real.sqrt 30) := by
      nlinarith [mul_pos (mul_pos hZ hsig) (sub_pos.mpr h30)]
    have hexp1 := Real.exp_lt_exp.mpr h1
    have hexp2 := Real.exp_lt_exp.mpr (neg_lt_neg h1)
    linarith [mul_lt_mul_of_pos_left hexp1 hs, mul_lt_mul_of_pos_left hexp2 hs]

/-- Witness for C8: a concrete fan chart (spot 58, annualized volatility
10%) whose 95% band at day 30 is wider than at day 1. -/
theorem c8_fan_chart_witness :
    ((Dashboard.buildFanChart 58 (1 / 10) 0 30).getD 0 default).band95 <
      ((Dashboard.buildFanChart 58 (1 / 10) 0 30).getD 29 default).band95 :=
  (c8_fan_chart 58 (1 / 10) (by norm_num) (by norm_num)).2.2

end Claims

namespace FxApi

/-- `mean` on a non-empty list is the sum over the length. -/
theorem mean_eq_sum_div (xs : List ℝ) (h : xs.length ≠ 0) :
    mean xs = xs.sum / xs.length := by
  unfold mean
  rw [if_neg h]

/-- `std` on a list of at least two points is the population standard
deviation: the square root of the mean of the squared deviations. -/
theorem std_eq_pop (xs : List ℝ) (h : 2 ≤ xs.length) :
    std xs = Real.sqrt ((xs.map (fun x => (x - mean xs) ^ 2)).sum / xs.length) := by
  unfold std
  rw [if_neg (by omega), mean_eq_sum_div _ (by rw [List.length_map]; omega), List.length_map]

/-- A constant list with one appended element still parses and sorts to
itself when every timestamp is `some 0`. -/
theorem parseSort_replicate_append (n : ℕ) (c d : ℝ) :
    parseSort (List.replicate n ⟨some 0, some c⟩ ++ [⟨some 0, some d⟩]) =
      List.replicate n ⟨some 0, some c⟩ ++ [⟨some 0, some d⟩] := by
  apply parseSort_of_t_zero
  intro p hp
  rcases List.mem_append.mp hp with h | h
  · rw [List.eq_of_mem_replicate h]
  · rw [List.mem_singleton.mp h]

/-- Numeric pairs of the constant-plus-jump input. -/
theorem numericOf_replicate_append (n : ℕ) (c d : ℝ) :
    numericOf (List.replicate n ⟨some 0, some c⟩ ++ [⟨some 0, some d⟩]) =
      List.replicate n (0, c) ++ [(0, d)] := by
  unfold numericOf
  rw [parseSort_replicate_append, List.filterMap_append,
    filterMap_replicate_some (fun (p : ApiPoint) => p.rate.map (fun r => (p.t.getD 0, r)))
      ⟨some 0, some c⟩ (0, c) rfl n]
  rfl

/-- Rate series of the constant-plus-jump input. -/
theorem ratesOf_replicate_append (n : ℕ) (c d : ℝ) :
    ratesOf (List.replicate n ⟨some 0, some c⟩ ++ [⟨some 0, some d⟩]) =
      List.replicate n c ++ [d] := by
  unfold ratesOf
  rw [numericOf_replicate_append, List.map_append, List.map_replicate]
  rfl

/-- Sum of a constant list with one appended element. -/
theorem sum_replicate_append (n : ℕ) (c d : ℝ) :
    (List.replicate n c ++ [d]).sum = n * c + d := by
  rw [List.sum_append, List.sum_replicate, nsmul_eq_mul, List.sum_singleton]

/-- Mean of a constant list with one appended element. -/
theorem mean_replicate_append (n : ℕ) (c d : ℝ) :
    mean (List.replicate n c ++ [d]) = (n * c + d) / (n + 1) := by
  rw [mean_eq_sum_div _ (by simp), sum_replicate_append]
  simp

end FxApi

namespace Claims

open FxApi

/-- C4 (amended: the z-score divides by the *population* standard
deviation — the square root of the mean of the squared deviations, with
division by `n`, not the Bessel-corrected sample one): in a `LIVE`
invocation, `zScore90 = (latest - mean) / sigmaPop` over the trailing
`min 90 n` prices, and `null` exactly when that `sigmaPop` is not
positive (which covers windows of fewer than two points, where the
source's `std` returns `0`). -/
theorem c4_zscore_pop (now : ℤ) (pts : List ApiPoint) (led : Ledger)
    (h : 40 ≤ (numericOf pts).length) :
    (buildAlerts now pts led).zScore90 =
      (let rates := ratesOf pts
       let w := rates.drop (rates.length - min 90 rates.length)
       let sigmaPop := Real.sqrt ((w.map (fun x => (x - mean w) ^ 2)).sum / w.length)
       if 0 < sigmaPop then some ((rates.getLastD 0 - mean w) / sigmaPop) else none) := by
  rw [buildAlerts_live now pts led h]
  dsimp only
  have hlen : 40 ≤ (ratesOf pts).length := by
    rw [ratesOf, List.length_map]
    exact h
  have hw : 2 ≤ ((ratesOf pts).drop ((ratesOf pts).length - min 90 (ratesOf pts).length)).length := by
    rw [List.length_drop]
    omega
  unfold zScoreOf
  rw [std_eq_pop _ hw]

end Claims

namespace Claims

open FxApi

/-- Witness for C4: on the flat 200-point series the trailing-window
population stdev is zero, so both the engine and the amended formula
report the z-score as unavailable. -/
theorem c4_zscore_pop_witness :
    40 ≤ (numericOf (List.replicate 200 (⟨some 0, some 50⟩ : ApiPoint))).length ∧
    (buildAlerts 3 (List.replicate 200 (⟨some 0, some 50⟩ : ApiPoint)) []).zScore90 =
      (let rates := ratesOf (List.replicate 200 (⟨some 0, some 50⟩ : ApiPoint))
       let w := rates.drop (rates.length - min 90 rates.length)
       let sigmaPop := Real.sqrt ((w.map (fun x => (x - mean w) ^ 2)).sum / w.length)
       if 0 < sigmaPop then some ((rates.getLastD 0 - mean w) / sigmaPop) else none) := by
  have h40 : 40 ≤ (numericOf (List.replicate 200 (⟨some 0, some 50⟩ : ApiPoint))).length := by
    rw [numericOf_flat, List.length_replicate]
    norm_num
  exact ⟨h40, c4_zscore_pop 3 _ [] h40⟩

/-- Counterexample to C4 as stated: on 39 prices of 1 followed by one
price of 2 (40 valid points), the engine's z-score divides by the
population stdev `sqrt (39/1600)`, while the claim's sample stdev is
`sqrt (1/40)`; the two quotients differ. -/
theorem c4_zscore_pop_cex :
    (buildAlerts 0 (List.replicate 39 (⟨some 0, some 1⟩ : ApiPoint) ++ [⟨some 0, some 2⟩])
        []).zScore90 ≠
      SpecSide.zScoreSampleClaim
        (ratesOf (List.replicate 39 (⟨some 0, some 1⟩ : ApiPoint) ++ [⟨some 0, some 2⟩])) := by
  have h40 : 40 ≤ (numericOf
      (List.replicate 39 (⟨some 0, some 1⟩ : ApiPoint) ++ [⟨some 0, some 2⟩])).length := by
    rw [numericOf_replicate_append]
    simp
  rw [buildAlerts_live _ _ _ h40]
  dsimp only
  rw [ratesOf_replicate_append 39 1 2]
  have hlen : (List.replicate 39 (1 : ℝ) ++ [2]).length = 40 := by simp
  have hmean : mean (List.replicate 39 (1 : ℝ) ++ [2]) = 41 / 40 := by
    rw [mean_replicate_append]
    norm_num
  have hlast : (List.replicate 39 (1 : ℝ) ++ [2]).getLastD 0 = 2 := by simp
  have hsqsum : ((List.replicate 39 (1 : ℝ) ++ [2]).map
      (fun x => (x - mean (List.replicate 39 (1 : ℝ) ++ [2])) ^ 2)).sum = 39 / 40 := by
    rw [hmean, List.map_append, List.map_replicate]
    rw [show ((1 : ℝ) - 41 / 40) ^ 2 = 1 / 1600 by norm_num]
    rw [show (List.map (fun x => (x - 41 / 40) ^ 2) [(2 : ℝ)]) = [1521 / 1600] by norm_num]
    rw [sum_replicate_append]
    norm_num
  have hstd : std (List.replicate 39 (1 : ℝ) ++ [2]) = Real.sqrt (39 / 1600) := by
    rw [std_eq_pop _ (by rw [hlen]; norm_num), hsqsum, hlen]
    norm_num
  have hdrop : (List.replicate 39 (1 : ℝ) ++ [2]).drop
      ((List.replicate 39 (1 : ℝ) ++ [2]).length -
        min 90 (List.replicate 39 (1 : ℝ) ++ [2]).length) =
      List.replicate 39 (1 : ℝ) ++ [2] := by
    rw [hlen]
    simp
  unfold zScoreOf
  rw [hdrop, hstd, hlast, hmean,
    if_pos (Real.sqrt_pos.mpr (by norm_num : (0 : ℝ) < 39 / 1600))]
  unfold SpecSide.zScoreSampleClaim
  dsimp only
  rw [hdrop]
  have hsamp : SpecSide.sampleStdevSpec (List.replicate 39 (1 : ℝ) ++ [2]) =
      Real.sqrt (1 / 40) := by
    unfold SpecSide.sampleStdevSpec
    rw [if_neg (by rw [hlen]; norm_num), hsqsum, hlen]
    norm_num
  rw [hsamp, hlast, hmean, hlen]
  rw [if_neg (by
    push_neg
    exact ⟨by norm_num, ne_of_gt (Real.sqrt_pos.mpr (by norm_num))⟩)]
  intro heq
  have heq' := Option.some.inj heq
  rw [show (2 : ℝ) - 41 / 40 = 39 / 40 by norm_num] at heq'
  have hb : (0 : ℝ) < Real.sqrt (39 / 1600) := Real.sqrt_pos.mpr (by norm_num)
  have hc : (0 : ℝ) < Real.sqrt (1 / 40) := Real.sqrt_pos.mpr (by norm_num)
  rw [div_eq_div_iff (ne_of_gt hb) (ne_of_gt hc)] at heq'
  have h2 := mul_left_cancel₀ (by norm_num : (39 / 40 : ℝ) ≠ 0) heq'
  have h3 := (Real.sqrt_inj (by norm_num) (by norm_num)).mp h2.symm
  norm_num at h3

end Claims

namespace Claims

/-- C6 (amended: only the strict alert-engine path estimates volatility
from log returns; the lenient metrics-card path `volAnnUpTo` estimates
it from *simple* returns `rate_i / rate_im1 - 1`): `rollingVolAnnualized`
is the annualized population stdev of the log returns of its trailing
window, while `computeFxRiskMetrics` feeds `volAnnUpTo` the simple-return
series for both its windows. -/
theorem c6_vol_return_conventions :
    (∀ (rates : List ℝ) (w : ℕ),
      ¬ rates.length < w + 1 →
      ¬ (FxApi.logReturns (rates.drop (rates.length - (w + 1)))).length < max 10 (w - 2) →
      FxApi.rollingVolAnnualized rates w =
        some (FxApi.std (FxApi.logReturns (rates.drop (rates.length - (w + 1)))) *
          Real.sqrt 252)) ∧
    (∀ cleanRates : List ℝ, ¬ cleanRates.length < 2 →
      (FxMetrics.computeFxRiskMetrics cleanRates).vol30Ann =
        FxMetrics.volAnnUpTo (FxMetrics.simpleReturns cleanRates) 30 ∧
      (FxMetrics.computeFxRiskMetrics cleanRates).vol90Ann =
        FxMetrics.volAnnUpTo (FxMetrics.simpleReturns cleanRates) 90) := by
  constructor
  · intro rates w h1 h2
    unfold FxApi.rollingVolAnnualized
    rw [if_neg h1, if_neg h2]
  · intro cleanRates h2
    unfold FxMetrics.computeFxRiskMetrics
    rw [if_neg h2]
    exact ⟨rfl, rfl⟩

/-- Witness for C6: the alert path on a flat 32-point series, and the
metrics path on an alternating 11-point series. -/
theorem c6_vol_return_conventions_witness :
    FxApi.rollingVolAnnualized (List.replicate 32 (50 : ℝ)) 30 =
      some (FxApi.std (FxApi.logReturns ((List.replicate 32 (50 : ℝ)).drop
        ((List.replicate 32 (50 : ℝ)).length - (30 + 1)))) * Real.sqrt 252) ∧
    (FxMetrics.computeFxRiskMetrics [(1 : ℝ), 2, 1, 2, 1, 2, 1, 2, 1, 2, 1]).vol30Ann =
      FxMetrics.volAnnUpTo (FxMetrics.simpleReturns [(1 : ℝ), 2, 1, 2, 1, 2, 1, 2, 1, 2, 1]) 30 := by
  constructor
  · refine c6_vol_return_conventions.1 (List.replicate 32 (50 : ℝ)) 30 (by simp) ?_
    rw [List.length_replicate, show 32 - (30 + 1) = 1 by norm_num, List.drop_replicate,
      show 32 - 1 = 31 by norm_num, FxApi.logReturns_replicate 31 50 (by norm_num),
      List.length_replicate]
    norm_num
  · exact (c6_vol_return_conventions.2 [(1 : ℝ), 2, 1, 2, 1, 2, 1, 2, 1, 2, 1] (by norm_num)).1

end Claims

namespace Claims

/-- Counterexample to C6 as stated: on the 11-point series
`[1,2,1,2,1,2,1,2,1,2,1]` the metrics-card volatility (sample stdev of
the *simple* returns, annualized) differs from the annualized sample
stdev of the *log* returns that the claim asserts for every volatility
estimate. -/
theorem c6_vol_return_conventions_cex :
    (FxMetrics.computeFxRiskMetrics [(1 : ℝ), 2, 1, 2, 1, 2, 1, 2, 1, 2, 1]).vol30Ann ≠
      SpecSide.logVolUpToClaim [(1 : ℝ), 2, 1, 2, 1, 2, 1, 2, 1, 2, 1] 30 := by
  have hsr : FxMetrics.simpleReturns [(1 : ℝ), 2, 1, 2, 1, 2, 1, 2, 1, 2, 1] =
      [1, -(1/2), 1, -(1/2), 1, -(1/2), 1, -(1/2), 1, -(1/2)] := by
    unfold FxMetrics.simpleReturns
    norm_num [List.zip_cons_cons, List.filterMap_cons]
  have hlr : FxApi.logReturns [(1 : ℝ), 2, 1, 2, 1, 2, 1, 2, 1, 2, 1] =
      [Real.log 2, -Real.log 2, Real.log 2, -Real.log 2, Real.log 2, -Real.log 2,
        Real.log 2, -Real.log 2, Real.log 2, -Real.log 2] := by
    have hhalf : Real.log ((1 : ℝ)/2) = -Real.log 2 := by
      rw [one_div, Real.log_inv]
    unfold FxApi.logReturns
    norm_num [List.zip_cons_cons, List.filterMap_cons, hhalf]
  have hA : (FxMetrics.computeFxRiskMetrics [(1 : ℝ), 2, 1, 2, 1, 2, 1, 2, 1, 2, 1]).vol30Ann =
      some (Real.sqrt (5/8) * Real.sqrt 252) := by
    unfold FxMetrics.computeFxRiskMetrics
    rw [if_neg (by norm_num)]
    dsimp only
    rw [hsr]
    unfold FxMetrics.volAnnUpTo
    rw [if_neg (by norm_num), show ([(1 : ℝ), -(1/2), 1, -(1/2), 1, -(1/2), 1, -(1/2), 1,
      -(1/2)].length - min 30 [(1 : ℝ), -(1/2), 1, -(1/2), 1, -(1/2), 1, -(1/2), 1,
      -(1/2)].length) = 0 by norm_num, List.drop_zero,
      FxMetrics.stdevSample_isSome _ (by norm_num)]
    unfold FxMetrics.annualize
    norm_num [List.foldl_cons, List.foldl_nil]
  have hB : SpecSide.logVolUpToClaim [(1 : ℝ), 2, 1, 2, 1, 2, 1, 2, 1, 2, 1] 30 =
      some (Real.sqrt (10 * Real.log 2 ^ 2 / 9) * Real.sqrt 252) := by
    unfold SpecSide.logVolUpToClaim
    dsimp only
    rw [hlr]
    rw [if_neg (by norm_num), show ([Real.log 2, -Real.log 2, Real.log 2, -Real.log 2,
      Real.log 2, -Real.log 2, Real.log 2, -Real.log 2, Real.log 2, -Real.log 2].length -
      min 30 [Real.log 2, -Real.log 2, Real.log 2, -Real.log 2, Real.log 2, -Real.log 2,
      Real.log 2, -Real.log 2, Real.log 2, -Real.log 2].length) = 0 by norm_num,
      List.drop_zero, FxMetrics.stdevSample_isSome _ (by norm_num)]
    unfold FxMetrics.annualize
    norm_num [List.sum_cons, List.foldl_cons, List.foldl_nil]
    ring_nf
    rw [Real.sqrt_mul (sq_nonneg (Real.log 2))]
    ring
  rw [hA, hB]
  intro heq
  have h := Option.some.inj heq
  have h252 : (0 : ℝ) < Real.sqrt 252 := Real.sqrt_pos.mpr (by norm_num)
  have h2 := mul_right_cancel₀ (ne_of_gt h252) h
  have h3 := (Real.sqrt_inj (by norm_num) (by positivity)).mp h2
  have hl0 : 0 < Real.log 2 := Real.log_pos (by norm_num)
  have hl1 : Real.log 2 < 0.75 := lt_trans Real.log_two_lt_d9 (by norm_num)
  nlinarith [h3, hl0, hl1]

end Claims
